import Mathlib

/-!
Verification development for the uniswap-delta-neutral-hedge-hft repository.

Part 1 models the price/tick mathematics of
src/uniswap_hft/uniswap_math/TokenManagement.py over the real numbers:
each Python float expression is translated literally to the corresponding
real-valued expression (Python `math.sqrt` becomes Real.sqrt,
`math.log(x, b)` becomes Real.log x / Real.log b, `int(...)` becomes
truncation toward zero).

Part 2 (further below) models the position-lifecycle manager of
src/uniswap_hft/web3_manager/web_manager.py as a state machine over
exact rational arithmetic, with an oracle environment supplying the
responses of the external collaborators (chain RPC, CEX client, clock).
-/

namespace UniswapHft

/-- Python `int(x)` on a float: truncation toward zero. -/
noncomputable def pyTrunc (x : ℝ) : ℤ := if 0 ≤ x then ⌊x⌋ else ⌈x⌉

/-- Python `int(x)` on an exact rational value: truncation toward zero. -/
def pyTruncQ (x : ℚ) : ℤ := if 0 ≤ x then ⌊x⌋ else ⌈x⌉

/-- The TokenManager's per-instance data: the two token decimal counts
(src/uniswap_hft/uniswap_math/TokenManagement.py, TokenManager.__init__). -/
structure TokenManager where
  token0_decimal : ℤ
  token1_decimal : ℤ

namespace TokenManager

/-- self.Q96 = 2**96. -/
def Q96 : ℝ := 2 ^ 96

/-- price_to_sqrt_price_x_96: sqrt(10 ** (token0_decimal - token1_decimal) * price) * Q96. -/
noncomputable def price_to_sqrt_price_x_96 (tm : TokenManager) (price : ℝ) : ℝ :=
  Real.sqrt ((10 : ℝ) ^ (tm.token0_decimal - tm.token1_decimal) * price) * Q96

/-- sqrt_price_x_96_to_tick: int(abs(math.log(price / Q96, sqrt(1.0001)))).
Python's two-argument log is the quotient of natural logs. -/
noncomputable def sqrt_price_x_96_to_tick (price : ℝ) : ℤ :=
  pyTrunc |Real.log (price / Q96) / Real.log (Real.sqrt 1.0001)|

/-- tick_to_price: 1 / (1.0001 ** tick * 10 ** (token0_decimal - token1_decimal)). -/
noncomputable def tick_to_price (tm : TokenManager) (tick : ℤ) : ℝ :=
  1 / ((1.0001 : ℝ) ^ tick * (10 : ℝ) ^ (tm.token0_decimal - tm.token1_decimal))

/-- price_to_tick: sqrt_price_x_96_to_tick composed with price_to_sqrt_price_x_96. -/
noncomputable def price_to_tick (tm : TokenManager) (price : ℝ) : ℤ :=
  sqrt_price_x_96_to_tick (tm.price_to_sqrt_price_x_96 price)

/-- The six values returned by get_ranges, with the source's field names. -/
structure Ranges where
  lower_range : ℝ
  current_price : ℝ
  upper_range : ℝ
  lower_tick : ℤ
  current_tick : ℤ
  upper_tick : ℤ

/-- get_ranges: the upper price bound is current_price * (1 + percentage / 100), the
lower bound current_price / (1 + percentage / 100); the upper TICK comes from the
LOWER price bound and vice versa, exactly as in the source. -/
noncomputable def get_ranges (tm : TokenManager) (percentage current_price : ℝ) : Ranges :=
  let upper_range := current_price * (1 + percentage / 100)
  let lower_range := current_price / (1 + percentage / 100)
  { lower_range := lower_range
    current_price := current_price
    upper_range := upper_range
    lower_tick := tm.price_to_tick upper_range
    current_tick := tm.price_to_tick current_price
    upper_tick := tm.price_to_tick lower_range }

/-- calculate_liquidity_amounts: the three-region piecewise formula, returning
(amount0, amount1). SMIN/SMAX/sqrt0 are the square roots of the decimal-adjusted
range bounds and current price. -/
noncomputable def calculate_liquidity_amounts (tm : TokenManager)
    (range_low_price range_high_price current_price target_amount : ℝ) : ℝ × ℝ :=
  let e : ℝ := (10 : ℝ) ^ (tm.token1_decimal - tm.token0_decimal)
  let SMIN := Real.sqrt (range_low_price * e)
  let SMAX := Real.sqrt (range_high_price * e)
  let sqrt0 := Real.sqrt (current_price * e)
  if SMIN < sqrt0 ∧ sqrt0 < SMAX then
    let deltaL := target_amount /
      ((sqrt0 - SMIN) + ((1 / sqrt0) - (1 / SMAX)) * (current_price * e))
    (deltaL * ((1 / sqrt0) - (1 / SMAX)) * e, deltaL * (sqrt0 - SMIN))
  else if sqrt0 < SMIN then
    let deltaL := target_amount / ((1 / SMIN - 1 / SMAX) * current_price)
    (deltaL * (1 / SMIN - 1 / SMAX), 0)
  else
    let deltaL := target_amount / (SMAX - SMIN)
    (0, deltaL * (SMAX - SMIN))

end TokenManager

/-!
Part 2: the Web3Manager of src/uniswap_hft/web3_manager/web_manager.py.

The manager is modelled as a state machine.  Numeric values are exact
rationals (the manager only moves, compares and stores them; no claim of
this development depends on float rounding inside the manager), timestamps
are natural numbers advanced by `time.sleep`, and every call to an external
collaborator (chain RPC, ERC-20 contracts, the OKX client) draws its
response from an oracle `Env` through a monotone cursor `k`, so one `Env`
describes one arbitrary behaviour of the outside world.  Computations the
manager performs itself (branching, arithmetic, history mutation, the
boolean `lock` guard) are translated statement by statement from the
source.
-/

namespace Web3Manager

/-- The exceptions web_manager.py raises itself, plus the built-in Python errors its
code can trigger and the OKX-client exceptions it catches.  `nonTermination` is not a
Python error: it marks exhaustion of the fuel bound of a modelled polling loop
(reachable only if the loop's sleep interval were zero). -/
inductive PyErr where
  | typeError
  | indexError
  | zeroDivisionError
  | valueError
  | exception
  | insufficientFunds
  | blocktradeFailed
  | depositFailed
  | transferFailed
  | withdrawFailed
  | withdrawTimeout
  | blockTradingMinNotional
  | blockTradingNoQuote
  | blockTradingTimeout
  | blockTradingError
  | nonTermination
deriving DecidableEq

/-- The three lock-guarded operations. -/
inductive Fn where
  | openPos
  | updatePos
  | closePos
deriving DecidableEq

/-- Observable events: a lock-guarded operation being called, and its body actually
starting (a call with no matching enter was skipped by the lock). -/
inductive Ev where
  | call (f : Fn)
  | enter (f : Fn)
deriving DecidableEq

/-- One entry of position_history, with exactly the keys this source revision writes
in open_position (lines 1401-1462) and close_position (lines 1543-1549).  Note that
this revision records no tick_initial or price_initial key. -/
structure PositionRecord where
  token0_symbol : String := ""
  token1_symbol : String := ""
  token0_address : String := ""
  token1_address : String := ""
  is_open : Bool := false
  amount0 : ℤ := 0
  amount1 : ℤ := 0
  tick_lower : ℤ := 0
  tick_upper : ℤ := 0
  tick_current : ℤ := 0
  price_current : ℚ := 0
  range_lower : ℚ := 0
  range_upper : ℚ := 0
  mint_rc_amount0 : ℤ := 0
  mint_rc_amount1 : ℤ := 0
  mint_rc_tick_lower : ℤ := 0
  mint_rc_tick_upper : ℤ := 0
  tokenID : ℤ := 0
  tx_mint : Option String := none
  tx_swap : Option String := none
  tx_decrease : Option String := none
  tx_collect : Option String := none
  tx_burn : Option String := none
  last_update : ℕ := 0
  message : String := ""
  token_url : String := ""
deriving DecidableEq

/-- The constructor arguments and derived constants of a Web3Manager instance. -/
structure Config where
  range_percentage : ℚ := 10
  usd_capital : ℚ := 1000
  burn_on_close : Bool := false
  cex_credentials : Bool := false
  token0_symbol : String := "USDC"
  token1_symbol : String := "WETH"
  token0_address : String := "0xtoken0"
  token1_address : String := "0xtoken1"
  decimal0 : ℕ := 6
  decimal1 : ℕ := 18
  maximum_spread_bps : ℚ := 3
deriving DecidableEq

/-- token0_symbol_cex: WETH is renamed to ETH on the CEX side. -/
def Config.token0_symbol_cex (cfg : Config) : String :=
  if cfg.token0_symbol = "WETH" then "ETH" else cfg.token0_symbol

/-- token1_symbol_cex: WETH is renamed to ETH on the CEX side. -/
def Config.token1_symbol_cex (cfg : Config) : String :=
  if cfg.token1_symbol = "WETH" then "ETH" else cfg.token1_symbol

/-- Outcome of one make_single_leg_block_trade call, as the OKX client surfaces it:
either a fill (with its size and price legs) or one of the client's exceptions. -/
inductive BlockTradeOutcome where
  | filled (sz px : ℚ)
  | minNotional
  | noQuote
  | timedOut
  | failed
deriving DecidableEq

/-- The oracle for every external collaborator: field number `k` is the response to
the k-th external interaction the manager performs. -/
structure Env where
  price : ℕ → ℚ
  tick : ℕ → ℤ
  erc20BalanceOf : ℕ → ℤ × ℤ
  ethBalance : ℕ → ℤ
  maxFee : ℕ → ℚ
  funding : ℕ → List (String × ℚ)
  trading : ℕ → List (String × ℚ)
  lotSize : ℕ → ℚ → ℚ
  transferCode : ℕ → String
  withdrawCode : ℕ → String
  depositAddresses : ℕ → List String
  txHash : ℕ → String
  blockTrade : ℕ → BlockTradeOutcome
  marketOrder : ℕ → String
  tokenId : ℕ → ℤ
  mintAmounts : ℕ → ℤ × ℤ × ℤ × ℤ
  rangeFromTick : ℤ → ℚ → ℤ × ℤ
  calcAmounts : ℕ → ℚ × ℚ

/-- The manager's mutable state: the lock flag, the in-memory history, the persisted
history file (none = file absent), the background-process handle (None throughout
this revision: the only assignment to it sits in the commented-out block at lines
1083-1092), self.amount0/self.amount1, the cached wallet balances, the clock, and
the oracle cursor. -/
structure State where
  lock : Bool := false
  position_history : List PositionRecord := []
  stored_history : Option (List PositionRecord) := none
  background_process : Bool := false
  amount0 : ℤ := 0
  amount1 : ℤ := 0
  token0Balance : ℤ := 0
  token1Balance : ℤ := 0
  now : ℕ := 0
  k : ℕ := 0
deriving DecidableEq

/-- The manager's effect monad: a Python method body either returns a value or
raises, mutates the state it started from, and leaves a list of observable events. -/
def M (α : Type) : Type := State → Except PyErr α × State × List Ev

instance : Monad M where
  pure a := fun s => (.ok a, s, [])
  bind x f := fun s =>
    match x s with
    | (.ok a, s1, tr) =>
      match f a s1 with
      | (r, s2, tr2) => (r, s2, tr ++ tr2)
    | (.error e, s1, tr) => (.error e, s1, tr)

/-- Raise a Python exception. -/
def raise (e : PyErr) : M α := fun s => (.error e, s, [])

/-- Read the whole state. -/
def getS : M State := fun s => (.ok s, s, [])

/-- Mutate the state. -/
def modifyS (f : State → State) : M Unit := fun s => (.ok (), f s, [])

/-- Perform one external interaction: yield the oracle cursor and advance it. -/
def step : M ℕ := fun s => (.ok s.k, { s with k := s.k + 1 }, [])

/-- Lift a pure fallible computation. -/
def liftExc (x : Except PyErr α) : M α := fun s => (x, s, [])

/-- Run a computation and capture its exception instead of propagating it
(a Python try/except around the call). -/
def attempt (x : M α) : M (Except PyErr α) := fun s =>
  match x s with
  | (.ok a, s1, tr) => (.ok (.ok a), s1, tr)
  | (.error e, s1, tr) => (.ok (.error e), s1, tr)

/-- time.sleep(t): the clock advances by the sleep interval. -/
def sleep (t : ℕ) : M Unit := modifyS fun s => { s with now := s.now + t }

/-- Python some_list[-1]: the last element, or IndexError on an empty list. -/
def pyLast : List α → Except PyErr α
  | [] => .error .indexError
  | [a] => .ok a
  | _ :: b :: rest => pyLast (b :: rest)

/-- In-place mutation of some_list[-1]. -/
def modifyLast (f : α → α) : List α → List α
  | [] => []
  | [a] => [f a]
  | a :: b :: rest => a :: modifyLast f (b :: rest)

/-- Binding of a Python call `f(*args, **kwargs)` against a declared parameter list:
a keyword that names a parameter already filled positionally raises TypeError
(got multiple values), as do an unknown keyword, a parameter left unfilled
(the callee has no defaults) and surplus positional arguments. -/
def pyBindArgs (params : List String) (positionalCount : ℕ) (keywords : List String) :
    Except PyErr Unit :=
  if keywords.any fun kw => (params.take positionalCount).contains kw then
    .error .typeError
  else if keywords.any fun kw => ¬ params.contains kw then
    .error .typeError
  else if params.any fun p =>
      ¬ (params.take positionalCount).contains p ∧ ¬ keywords.contains p then
    .error .typeError
  else if params.length < positionalCount then
    .error .typeError
  else
    .ok ()

/-- pyDiv models Python float division, which raises on a zero divisor. -/
def pyDiv (a b : ℚ) : Except PyErr ℚ :=
  if b = 0 then .error .zeroDivisionError else .ok (a / b)

/-- round_down (web_manager.py line 60): math.floor(number * 10.0 ** decimals)
divided by the same factor. -/
def round_down (number : ℚ) (decimals : ℕ) : ℚ :=
  ⌊number * 10 ^ decimals⌋ / 10 ^ decimals

/-- First balance entry of a currency in an OKX balance response, 0 if absent
(the list-comprehension-then-index pattern of get_cex_balances). -/
def lookupBalance (l : List (String × ℚ)) (c : String) : ℚ :=
  match l.find? fun x => x.1 = c with
  | some x => x.2
  | none => 0

section Ops

variable (cfg : Config) (env : Env)

/-- get_current_price: one pool-contract query. -/
def get_current_price : M ℚ := do
  let k ← step
  pure (env.price k)

/-- get_current_tick: one pool-contract query. -/
def get_current_tick : M ℤ := do
  let k ← step
  pure (env.tick k)

/-- get_current_time_str: the current clock value (the formatted string carries no
information the model needs beyond the timestamp itself). -/
def get_current_time_str : M ℕ := fun s => (.ok s.now, s, [])

/-- store_position_history: rewrite the JSON file with the in-memory history. -/
def store_position_history : M Unit :=
  modifyS fun s => { s with stored_history := some s.position_history }

/-- The pair of balances update_wallet_balance returns, as a function of the oracle
cursor: the raw ERC-20 balances, with the WETH slots replaced by the native ETH
balance in CEX mode exactly as in lines 347-362 (an unwrap, or a zero WETH balance,
makes the method read w3.eth.get_balance instead). -/
def walletView (unwrap_weth : Bool) (k : ℕ) : ℤ × ℤ :=
  let b := env.erc20BalanceOf k
  if cfg.cex_credentials then
    let b0 :=
      if cfg.token0_symbol = "WETH" then
        let v := if unwrap_weth ∧ 0 < b.1 then env.ethBalance k else b.1
        if v = 0 then env.ethBalance k else v
      else b.1
    let b1 :=
      if cfg.token1_symbol = "WETH" then
        let v := if unwrap_weth ∧ 0 < b.2 then env.ethBalance k else b.2
        if v = 0 then env.ethBalance k else v
      else b.2
    (b0, b1)
  else
    (b.1, b.2)

/-- update_wallet_balance: one poll of the wallet (all its reads observe the same
chain state, hence a single cursor advance). -/
def update_wallet_balance (unwrap_weth : Bool) : M (ℤ × ℤ) := do
  let k ← step
  pure (walletView cfg env unwrap_weth k)

/-- In-place mutation of self.position_history[-1]. -/
def modify_last (f : PositionRecord → PositionRecord) : M Unit :=
  modifyS fun s => { s with position_history := modifyLast f s.position_history }

/-- The dictionary get_existing_required_amounts builds. -/
structure WalletAmounts where
  existing_amount0 : ℤ
  existing_amount0_decimal : ℚ
  existing_amount1 : ℤ
  existing_amount1_decimal : ℚ
  required_amount0 : ℤ
  required_amount0_decimal : ℚ
  required_amount1 : ℤ
  required_amount1_decimal : ℚ
deriving DecidableEq

/-- get_existing_required_amounts: wallet balances plus the target amounts inflated
by the 1.01 slippage buffer (int(self.amount * 1.01), the float literal 1.01 taken
at its decimal value). -/
def get_existing_required_amounts : M WalletAmounts := do
  let e ← update_wallet_balance cfg env false
  let st ← getS
  let required_amount0 := pyTruncQ ((st.amount0 : ℚ) * (101 / 100))
  let required_amount1 := pyTruncQ ((st.amount1 : ℚ) * (101 / 100))
  pure
    { existing_amount0 := e.1
      existing_amount0_decimal := (e.1 : ℚ) / 10 ^ cfg.decimal0
      existing_amount1 := e.2
      existing_amount1_decimal := (e.2 : ℚ) / 10 ^ cfg.decimal1
      required_amount0 := required_amount0
      required_amount0_decimal := (required_amount0 : ℚ) / 10 ^ cfg.decimal0
      required_amount1 := required_amount1
      required_amount1_decimal := (required_amount1 : ℚ) / 10 ^ cfg.decimal1 }

/-- swap_amounts_uniswap (lines 1168-1261), the non-hedged swap: no swap when both
balances suffice, InsufficientFunds when both are short, otherwise a single swap
of the surplus asset provided it also covers the swap itself. -/
def swap_amounts_uniswap : M (Option String) := do
  let current_price ← get_current_price env
  let wa ← get_existing_required_amounts cfg env
  if wa.existing_amount0 ≥ wa.required_amount0 ∧
      wa.existing_amount1 ≥ wa.required_amount1 then
    pure none
  else if wa.existing_amount0 < wa.required_amount0 ∧
      wa.existing_amount1 < wa.required_amount1 then
    raise .insufficientFunds
  else
    let sel ←
      if wa.existing_amount0 < wa.required_amount0 then do
        let q ← liftExc (pyDiv (wa.existing_amount1 : ℚ) current_price)
        if (wa.existing_amount1 : ℚ) ≥ (wa.required_amount1 : ℚ) + q then
          pure (wa.required_amount0 - wa.existing_amount0,
            cfg.token1_address, cfg.token0_address)
        else
          raise .insufficientFunds
      else if wa.existing_amount1 < wa.required_amount1 then do
        let q ← liftExc (pyDiv (wa.existing_amount0 : ℚ) current_price)
        if (wa.existing_amount0 : ℚ) ≥ (wa.required_amount0 : ℚ) + q then
          pure (wa.required_amount1 - wa.existing_amount1,
            cfg.token0_address, cfg.token1_address)
        else
          raise .insufficientFunds
      else
        raise .exception
    let _ := sel
    let k ← step
    pure (some (env.txHash k))

/-- The dictionary get_cex_balances builds. -/
structure CexBalances where
  cex_existing_amount0 : ℚ
  cex_existing_amount1 : ℚ
  cex_existing_amount0_decimal : ℚ
  cex_existing_amount1_decimal : ℚ
deriving DecidableEq

/-- get_cex_balances (lines 425-502): read funding balances, sweep any positive
funding balance into trading (responses unchecked), then read the trading balances
and scale them by the token decimals. -/
def get_cex_balances : M CexBalances := do
  let kf ← step
  let funding := env.funding kf
  let f0 := lookupBalance funding cfg.token0_symbol_cex
  let f1 := lookupBalance funding cfg.token1_symbol_cex
  if 0 < f0 then do
    let _ ← step
    pure ()
  else pure ()
  if 0 < f1 then do
    let _ ← step
    pure ()
  else pure ()
  let kt ← step
  let trading := env.trading kt
  let d0 := lookupBalance trading cfg.token0_symbol_cex
  let d1 := lookupBalance trading cfg.token1_symbol_cex
  pure
    { cex_existing_amount0 := d0 * 10 ^ cfg.decimal0
      cex_existing_amount1 := d1 * 10 ^ cfg.decimal1
      cex_existing_amount0_decimal := d0
      cex_existing_amount1_decimal := d1 }

/-- The dictionary get_amounts_okx_blocktrading builds. -/
structure OkxAmounts where
  required_amount0 : ℤ
  required_amount1 : ℤ
  required_amount0_decimal : ℚ
  required_amount1_decimal : ℚ
  existing_amount0 : ℤ
  existing_amount1 : ℤ
  existing_amount0_decimal : ℚ
  existing_amount1_decimal : ℚ
  cex_existing_amount0 : ℚ
  cex_existing_amount1 : ℚ
  cex_existing_amount0_decimal : ℚ
  cex_existing_amount1_decimal : ℚ
  diff_amount0_in_token0 : ℚ
  diff_amount0_in_token1 : ℚ
  diff_amount1_in_token0 : ℚ
  diff_amount1_in_token1 : ℚ
  required_swap_amount_from_token0_decimal : ℚ
  required_swap_amount_from_token1_decimal : ℚ
  cex_symbol : String
deriving DecidableEq

/-- get_amounts_okx_blocktrading (lines 504-625): wallet and CEX snapshots, the gas
reserve for WETH, the OKX withdrawal fees added to the required amounts, and the
spread-inflated, lot-rounded, absolute cross-asset differences. -/
def get_amounts_okx_blocktrading : M OkxAmounts := do
  let current_price ← get_current_price env
  let wa ← get_existing_required_amounts cfg env
  let e :=
    if cfg.token0_symbol = "WETH" then
      (wa.existing_amount0 - 10 ^ 17, wa.existing_amount1)
    else if cfg.token1_symbol = "WETH" then
      (wa.existing_amount0, wa.existing_amount1 - 10 ^ 17)
    else
      (wa.existing_amount0, wa.existing_amount1)
  let required_amount0_decimal := (wa.required_amount0 : ℚ) / 10 ^ cfg.decimal0
  let required_amount1_decimal := (wa.required_amount1 : ℚ) / 10 ^ cfg.decimal1
  let existing_amount0_decimal := (e.1 : ℚ) / 10 ^ cfg.decimal0
  let existing_amount1_decimal := (e.2 : ℚ) / 10 ^ cfg.decimal1
  let kf0 ← step
  let required_amount0_decimal := required_amount0_decimal + env.maxFee kf0
  let kf1 ← step
  let required_amount1_decimal := required_amount1_decimal + env.maxFee kf1
  let cex ← get_cex_balances cfg env
  let cex_symbol := cfg.token0_symbol_cex ++ "-" ++ cfg.token1_symbol_cex
  let diff_amount0_in_token0 :=
    required_amount0_decimal - cex.cex_existing_amount0_decimal
  let diff_amount0_in_token1 :=
    (required_amount0_decimal - cex.cex_existing_amount0_decimal) * current_price
  let diff_amount1_in_token1 :=
    required_amount1_decimal - cex.cex_existing_amount1_decimal
  let diff_amount1_in_token0 ← liftExc
    (pyDiv (required_amount1_decimal - cex.cex_existing_amount1_decimal) current_price)
  let spread := 1 + cfg.maximum_spread_bps / 100 / 100
  let diff_amount0_in_token0 := diff_amount0_in_token0 * spread
  let diff_amount0_in_token1 := diff_amount0_in_token1 * spread
  let diff_amount1_in_token0 := diff_amount1_in_token0 * spread
  let diff_amount1_in_token1 := diff_amount1_in_token1 * spread
  let k0 ← step
  let diff_amount0_in_token0 := env.lotSize k0 diff_amount0_in_token0
  let k1 ← step
  let diff_amount1_in_token0 := env.lotSize k1 diff_amount1_in_token0
  let k2 ← step
  let diff_amount0_in_token1 := env.lotSize k2 diff_amount0_in_token1
  let k3 ← step
  let diff_amount1_in_token1 := env.lotSize k3 diff_amount1_in_token1
  let diff_amount0_in_token0 := |diff_amount0_in_token0|
  let diff_amount1_in_token0 := |diff_amount1_in_token0|
  let diff_amount0_in_token1 := |diff_amount0_in_token1|
  let diff_amount1_in_token1 := |diff_amount1_in_token1|
  pure
    { required_amount0 := wa.required_amount0
      required_amount1 := wa.required_amount1
      required_amount0_decimal := required_amount0_decimal
      required_amount1_decimal := required_amount1_decimal
      existing_amount0 := e.1
      existing_amount1 := e.2
      existing_amount0_decimal := existing_amount0_decimal
      existing_amount1_decimal := existing_amount1_decimal
      cex_existing_amount0 := cex.cex_existing_amount0
      cex_existing_amount1 := cex.cex_existing_amount1
      cex_existing_amount0_decimal := cex.cex_existing_amount0_decimal
      cex_existing_amount1_decimal := cex.cex_existing_amount1_decimal
      diff_amount0_in_token0 := diff_amount0_in_token0
      diff_amount0_in_token1 := diff_amount0_in_token1
      diff_amount1_in_token0 := diff_amount1_in_token0
      diff_amount1_in_token1 := diff_amount1_in_token1
      required_swap_amount_from_token0_decimal :=
        required_amount0_decimal + diff_amount1_in_token0
      required_swap_amount_from_token1_decimal :=
        required_amount1_decimal + diff_amount0_in_token1
      cex_symbol := cex_symbol }

/-- The polling body of wait_for_deposit_okx_blocktrading, by fuel (the source
sleeps 5 seconds per round, so max_deadline + 2 rounds always suffice; running out
of fuel could only model the diverging sleep_time = 0 configuration). -/
def wait_for_deposit_loop (watch0 : Bool) (old : ℚ) (deadline sleep_time : ℕ) :
    ℕ → M Unit
  | 0 => raise .nonTermination
  | fuel + 1 => do
    let cex ← get_cex_balances cfg env
    let cur := if watch0 then cex.cex_existing_amount0 else cex.cex_existing_amount1
    if old ≠ cur then
      pure ()
    else do
      let st ← getS
      if deadline < st.now then
        raise .depositFailed
      else do
        sleep sleep_time
        wait_for_deposit_loop watch0 old deadline sleep_time fuel

/-- wait_for_deposit_okx_blocktrading (lines 648-668): poll the CEX balance until it
differs from the snapshot or the deadline passes (DepositFailed). -/
def wait_for_deposit_okx_blocktrading (watch0 : Bool) (old : ℚ)
    (max_deadline sleep_time : ℕ) : M Unit := do
  let st ← getS
  wait_for_deposit_loop cfg env watch0 old (st.now + max_deadline) sleep_time
    (max_deadline + 2)

/-- deposit_amounts_if_needed_okx_blocktrading (lines 670-695), inlining
deposit_funds_cex (lines 390-423): look up a deposit address (generic Exception when
none), transfer the funds on-chain, then wait for the CEX balance to move. -/
def deposit_amounts_if_needed_okx_blocktrading (amount : ℤ) (oldCex : ℚ)
    (watch0 : Bool) (max_deadline : ℕ) : M String := do
  let _ := amount
  let ka ← step
  let addrs := env.depositAddresses ka
  if addrs.isEmpty then
    raise .exception
  else do
    let kt ← step
    let deposit_tx_hash := env.txHash kt
    wait_for_deposit_okx_blocktrading cfg env watch0 oldCex max_deadline 5
    pure deposit_tx_hash

/-- transfer_funds_from_sub_to_main_okx_blocktrading (lines 697-721): one transfer
call; a response code other than "0" raises TransferFailed. -/
def transfer_funds_from_sub_to_main_okx_blocktrading (amount : ℚ) : M String := do
  let _ := amount
  let k ← step
  let code := env.transferCode k
  if code ≠ "0" then
    raise .transferFailed
  else
    pure code

/-- The polling body of wait_for_withdrawal_okx_blocktrading, by fuel.  One round
polls the wallet, returns when the watched balance exceeds the snapshot, raises
WithdrawTimeout once the clock passes the deadline, and otherwise sleeps. -/
def wait_for_withdrawal_loop (wallet_amount : ℤ) (watch0 : Bool)
    (deadline sleep_time : ℕ) : ℕ → M Unit
  | 0 => raise .nonTermination
  | fuel + 1 => do
    let b ← update_wallet_balance cfg env false
    if wallet_amount < (if watch0 then b.1 else b.2) then
      pure ()
    else do
      let st ← getS
      if deadline < st.now then
        raise .withdrawTimeout
      else do
        sleep sleep_time
        wait_for_withdrawal_loop wallet_amount watch0 deadline sleep_time fuel

/-- wait_for_withdrawal_okx_blocktrading (lines 723-774).  The four admissible
watch_amount keys name wallet component 0 or 1 (`watch0`); the WATCH_AMOUNTS
membership check cannot fail for them, so the ValueError branch is dead. -/
def wait_for_withdrawal_okx_blocktrading (wallet_amount : ℤ) (watch0 : Bool)
    (max_deadline sleep_time : ℕ) : M Unit := do
  let st ← getS
  wait_for_withdrawal_loop cfg env wallet_amount watch0 (st.now + max_deadline)
    sleep_time (max_deadline + 2)

/-- withdraw_amounts_okx_blocktrading (lines 776-813): one withdrawal call
(WithdrawFailed on a non-zero response code) followed by the wallet poll with the
source's default deadline of 3 hours and sleep of 5 seconds. -/
def withdraw_amounts_okx_blocktrading (wallet_amount : ℤ) (amount : ℚ)
    (watch0 : Bool) : M String := do
  let _ := amount
  let k ← step
  let code := env.withdrawCode k
  if code ≠ "0" then
    raise .withdrawFailed
  else do
    wait_for_withdrawal_okx_blocktrading cfg env wallet_amount watch0 (3 * 60 * 60) 5
    pure code

/-- make_block_trade (lines 815-824): the OKX client either fills or raises one of
its four exceptions. -/
def make_block_trade (symbol side : String) (amount : ℚ) : M (ℚ × ℚ) := do
  let _ := symbol
  let _ := side
  let _ := amount
  let k ← step
  match env.blockTrade k with
  | .filled sz px => pure (sz, px)
  | .minNotional => raise .blockTradingMinNotional
  | .noQuote => raise .blockTradingNoQuote
  | .timedOut => raise .blockTradingTimeout
  | .failed => raise .blockTradingError

/-- swap_stable (lines 826-829): buy USDT-USDC for the filled size times price. -/
def swap_stable (sz px : ℚ) : M (ℚ × ℚ) :=
  make_block_trade env "USDT-USDC" "buy" (sz * px)

/-- handle_no_quote_exception (lines 831-850): reroute through the other stablecoin
pairing (unknown symbols raise a generic Exception), retry the block trade
(an exception of the retry propagates: there is no handler here) and swap the
stablecoin leg back. -/
def handle_no_quote_exception (cex_symbol : String) (amount : ℚ) : M String := do
  let symbol ←
    if cex_symbol = "ETH-USDT" then pure "ETH-USDC"
    else if cex_symbol = "ETH-USDC" then pure "ETH-USDT"
    else raise .exception
  let t ← make_block_trade env symbol "buy" amount
  let _ ← swap_stable env t.1 t.2
  pure "fallback_block_trade"

/-- block_trade_okx_blocktrading (lines 852-897): try the block trade; on
minimum-notional failure place a market order for amount * 1.01, on no-quote fall
back through the stablecoin reroute, and on timeout or error raise
BlocktradeFailed. -/
def block_trade_okx_blocktrading (cex_symbol : String) (amount : ℚ) : M String := do
  let r ← attempt (make_block_trade env cex_symbol "sell_or_buy" amount)
  match r with
  | .ok _ => pure "block_trade"
  | .error .blockTradingMinNotional => do
    let k ← step
    pure (env.marketOrder k)
  | .error .blockTradingNoQuote =>
    handle_no_quote_exception env cex_symbol amount
  | .error .blockTradingTimeout => raise .blocktradeFailed
  | .error .blockTradingError => raise .blocktradeFailed
  | .error e => raise e

/-- check_required_and_existing_amounts (lines 1097-1138): for each asset, withdraw
the required amount unless the CEX balance is below it (negative percentage
difference), in which case withdraw the whole CEX balance.  True selects the
required_* key. -/
def check_required_and_existing_amounts (a : OkxAmounts) : M (Bool × Bool) := do
  let p0 ← liftExc (pyDiv a.required_amount0_decimal a.cex_existing_amount0_decimal)
  let p1 ← liftExc (pyDiv a.required_amount1_decimal a.cex_existing_amount1_decimal)
  let w0 := if 1 - p0 < 0 then false else true
  let w1 := if 1 - p1 < 0 then false else true
  pure (w0, w1)

/-- The amount the selected withdraw key denotes. -/
def withdrawAmount (a : OkxAmounts) (watch0 useRequired : Bool) : ℚ :=
  if watch0 then
    if useRequired then a.required_amount0_decimal else a.cex_existing_amount0_decimal
  else
    if useRequired then a.required_amount1_decimal else a.cex_existing_amount1_decimal

/-- swap_amounts_okx_blocktrading (lines 899-1095), the hedged saga: deposit
wallet surpluses, decide and execute the block-trade swap (InsufficientFunds when
neither side covers), round the CEX balances down, transfer both assets from the
trading subaccount to the main account and withdraw both to the wallet.  The
withdrawal calls are NOT wrapped in any try/except: the block that caught
WithdrawTimeout and spawned the background recovery process is commented out
(lines 1049-1094), so a withdrawal timeout propagates to the caller. -/
def swap_amounts_okx_blocktrading : M (List String) := do
  let _ ← update_wallet_balance cfg env true
  let amounts ← get_amounts_okx_blocktrading cfg env
  let rv0 ←
    if 0 < amounts.existing_amount0 then do
      let h ← deposit_amounts_if_needed_okx_blocktrading cfg env
        amounts.existing_amount0 amounts.cex_existing_amount0 true 300
      pure [h]
    else pure []
  let rv1 ←
    if 0 < amounts.existing_amount1 then do
      let h ← deposit_amounts_if_needed_okx_blocktrading cfg env
        amounts.existing_amount1 amounts.cex_existing_amount1 false 300
      pure [h]
    else pure []
  let amounts ← get_amounts_okx_blocktrading cfg env
  let rvSwap ←
    if amounts.required_amount0_decimal ≤ amounts.cex_existing_amount0_decimal ∧
        amounts.required_amount1_decimal ≤ amounts.cex_existing_amount1_decimal then
      pure []
    else if amounts.required_swap_amount_from_token0_decimal ≤
        amounts.cex_existing_amount0_decimal then do
      let r ← block_trade_okx_blocktrading env amounts.cex_symbol
        amounts.diff_amount1_in_token0
      pure [r]
    else if amounts.required_swap_amount_from_token1_decimal ≤
        amounts.cex_existing_amount1_decimal then do
      let r ← block_trade_okx_blocktrading env amounts.cex_symbol
        amounts.diff_amount0_in_token0
      pure [r]
    else
      raise .insufficientFunds
  let amounts ← get_amounts_okx_blocktrading cfg env
  let amounts :=
    { amounts with
      cex_existing_amount0_decimal := round_down amounts.cex_existing_amount0_decimal 3
      cex_existing_amount1_decimal := round_down amounts.cex_existing_amount1_decimal 3 }
  let w ← check_required_and_existing_amounts amounts
  let t0 ← transfer_funds_from_sub_to_main_okx_blocktrading env
    (withdrawAmount amounts true w.1)
  let t1 ← transfer_funds_from_sub_to_main_okx_blocktrading env
    (withdrawAmount amounts false w.2)
  let wallet ← update_wallet_balance cfg env false
  let w0 ← withdraw_amounts_okx_blocktrading cfg env wallet.1
    (withdrawAmount amounts true w.1) true
  let w1 ← withdraw_amounts_okx_blocktrading cfg env wallet.2
    (withdrawAmount amounts false w.2) false
  pure (rv0 ++ rv1 ++ rvSwap ++ [t0, t1, w0, w1])

/-- The union type swap_amounts returns. -/
inductive SwapResult where
  | cex (rvs : List String)
  | dex (receipt : Option String)
deriving DecidableEq

/-- swap_amounts (lines 1263-1276): the hedged saga when CEX credentials are
configured, the plain AMM swap otherwise. -/
def swap_amounts : M SwapResult :=
  if cfg.cex_credentials then do
    let r ← swap_amounts_okx_blocktrading cfg env
    pure (.cex r)
  else do
    let r ← swap_amounts_uniswap cfg env
    pure (.dex r)

/-- The dictionary calculate_position_range_and_amounts returns; its amount0/amount1
keys hold the WALLET BALANCES the method cached (lines 1324-1335). -/
structure RangeAmounts where
  amount0 : ℤ
  amount1 : ℤ
  token0_address : String
  token1_address : String
  tick_lower : ℤ
  tick_upper : ℤ
  tick_current : ℤ
  price_current : ℚ
  range_lower : ℚ
  range_upper : ℚ
deriving DecidableEq

/-- The rational value of tokenManager.tick_to_price for the instance the manager
builds (token0_decimal = min of the two decimal counts, token1_decimal = max,
line 1285-1291): 1 / (1.0001 ** tick * 10 ** (token0_decimal - token1_decimal)). -/
def qTickToPrice (tick : ℤ) : ℚ :=
  1 / ((10001 / 10000 : ℚ) ^ tick *
    (10 : ℚ) ^ ((min cfg.decimal0 cfg.decimal1 : ℤ) - (max cfg.decimal0 cfg.decimal1 : ℤ)))

/-- The call self.tokenManager.range_from_tick(currentTick=..., percentage=...) at
lines 1294-1297.  It is a bound-method call, so the TokenManager receiver is passed
as the first positional argument; but range_from_tick (TokenManagement.py line 194)
is declared WITHOUT a self parameter, its parameter list is exactly
[currentTick, percentage], and the binding therefore gives currentTick two values:
TypeError, always.  Were the binding to succeed, the resulting tick window is
real-valued (a logarithm), supplied here by the oracle; that branch is
unreachable. -/
def range_from_tick_call (currentTick : ℤ) (percentage : ℚ) : M (ℤ × ℤ) := do
  let _ ← liftExc (pyBindArgs ["currentTick", "percentage"] 1
    ["currentTick", "percentage"])
  pure (env.rangeFromTick currentTick percentage)

/-- calculate_position_range_and_amounts (lines 1278-1335): read price and tick,
rebuild the TokenManager (which reads the pool price once more), call
range_from_tick (TypeError, see range_from_tick_call), then - unreachably - derive
the price range, cache the target amounts and wallet balances net of the 0.1 ETH
gas reserve, and return the snapshot. -/
def calculate_position_range_and_amounts : M RangeAmounts := do
  let current_price ← get_current_price env
  let current_tick ← get_current_tick env
  let _ ← get_current_price env
  let ticks ← range_from_tick_call env current_tick cfg.range_percentage
  let range_low := qTickToPrice cfg ticks.1
  let range_low := 1 / range_low * 10 ^ (cfg.decimal0 + cfg.decimal1)
  let range_high := qTickToPrice cfg ticks.2
  let range_high := 1 / range_high * 10 ^ (cfg.decimal0 + cfg.decimal1)
  let kc ← step
  let a := env.calcAmounts kc
  let amount0 := pyTruncQ (a.1 * 10 ^ cfg.decimal0)
  let amount1 := pyTruncQ (a.2 * 10 ^ cfg.decimal1)
  modifyS fun s => { s with amount0 := amount0, amount1 := amount1 }
  let b ← update_wallet_balance cfg env false
  let b :=
    if cfg.token0_symbol = "WETH" then (b.1 - 10 ^ 17, b.2)
    else if cfg.token1_symbol = "WETH" then (b.1, b.2 - 10 ^ 17)
    else (b.1, b.2)
  modifyS fun s => { s with token0Balance := b.1, token1Balance := b.2 }
  pure
    { amount0 := b.1
      amount1 := b.2
      token0_address := cfg.token0_address
      token1_address := cfg.token1_address
      tick_lower := ticks.1
      tick_upper := ticks.2
      tick_current := current_tick
      price_current := current_price
      range_lower := range_low
      range_upper := range_high }

/-- history.update(range_amounts): the dict-update open_position performs. -/
def updateFromRange (h : PositionRecord) (r : RangeAmounts) : PositionRecord :=
  { h with
    amount0 := r.amount0
    amount1 := r.amount1
    token0_address := r.token0_address
    token1_address := r.token1_address
    tick_lower := r.tick_lower
    tick_upper := r.tick_upper
    tick_current := r.tick_current
    price_current := r.price_current
    range_lower := r.range_lower
    range_upper := r.range_upper }

/-- The decorator `lock` (lines 41-57): a call while self.lock holds is skipped and
returns None; otherwise the lock is taken, the body runs, and the finally block
releases the lock on every exit, normal or raising. -/
def withLock (f : Fn) (body : M (Option Bool)) : M (Option Bool) := fun s =>
  if s.lock then
    (.ok none, s, [.call f])
  else
    let r := body { s with lock := true }
    (r.1, { r.2.1 with lock := false }, .call f :: .enter f :: r.2.2)

/-- The body of open_position (lines 1386-1486).  Everything after the first
calculate_position_range_and_amounts call is unreachable in this revision (that
call always raises TypeError); it is transcribed nonetheless.  The
`swap_rc is web3.types.TxReceipt` test at line 1445 compares against the class
object and is always False, so tx_swap receives the raw swap result, modelled as
none. -/
def open_position_body : M (Option Bool) := do
  let range_amounts ← calculate_position_range_and_amounts cfg env
  let history : PositionRecord :=
    { token0_symbol := cfg.token0_symbol
      token1_symbol := cfg.token1_symbol
      token0_address := cfg.token0_address
      token1_address := cfg.token1_address
      is_open := true }
  let _ ← swap_amounts cfg env
  if cfg.cex_credentials then do
    let ra ← calculate_position_range_and_amounts cfg env
    let amount ←
      if cfg.token0_symbol = "WETH" ∨ cfg.token1_symbol = "ETH" then
        pure ra.amount0
      else if cfg.token1_symbol = "WETH" ∨ cfg.token0_symbol = "ETH" then
        pure ra.amount1
      else
        raise .exception
    let _ := amount
    let _ ← step
    pure ()
  else pure ()
  let range_amounts ← calculate_position_range_and_amounts cfg env
  let history := updateFromRange history range_amounts
  let km ← step
  let mint_tx_hash := env.txHash km
  let kt ← step
  let tokenId := env.tokenId kt
  let ka ← step
  let ma := env.mintAmounts ka
  let t ← get_current_time_str
  let history :=
    { history with
      mint_rc_amount0 := ma.1
      mint_rc_amount1 := ma.2.1
      mint_rc_tick_lower := ma.2.2.1
      mint_rc_tick_upper := ma.2.2.2
      tokenID := tokenId
      tx_mint := some mint_tx_hash
      tx_swap := none
      last_update := t
      message := "success"
      token_url := "uniswap_pool_url" }
  modifyS fun s => { s with position_history := s.position_history ++ [history] }
  store_position_history
  let st ← getS
  if st.background_process then
    pure (some true)
  else
    pure (some true)

/-- open_position: the body behind the lock decorator. -/
def open_position : M (Option Bool) := withLock .openPos (open_position_body cfg env)

/-- The body of close_position (lines 1488-1556): a no-op when the last record is
closed; otherwise decrease liquidity, collect fees, unwrap in CEX mode, burn when
configured, and mark the last record closed with its transaction hashes. -/
def close_position_body : M (Option Bool) := do
  let st ← getS
  let last ← liftExc (pyLast st.position_history)
  if ¬ last.is_open then
    pure none
  else do
    let kd ← step
    let remove_liquidity_tx_hash := env.txHash kd
    let kc ← step
    let collect_fees_tx_hash := env.txHash kc
    if cfg.cex_credentials then do
      let kb ← step
      let _ := env.erc20BalanceOf kb
      let _ ← step
      pure ()
    else pure ()
    if cfg.burn_on_close then do
      let kb ← step
      let burn_tx_hash := env.txHash kb
      modify_last fun r => { r with tx_burn := some burn_tx_hash }
      pure ()
    else pure ()
    let t ← get_current_time_str
    modify_last fun r =>
      { r with
        tx_decrease := some remove_liquidity_tx_hash
        tx_collect := some collect_fees_tx_hash
        last_update := t
        is_open := false }
    store_position_history
    pure none

/-- close_position: the body behind the lock decorator. -/
def close_position : M (Option Bool) := withLock .closePos (close_position_body cfg env)

/-- The body of update_position (lines 1337-1384).  When no position is open it
calls self.open_position() WITHOUT releasing the lock it holds, so that inner call
is skipped by the decorator; the rebalance branch, by contrast, first sets
self.lock = False so that close_position and open_position run. -/
def update_position_body : M (Option Bool) := do
  let st ← getS
  let last ← liftExc (pyLast st.position_history)
  if ¬ last.is_open then do
    let _ ← open_position cfg env
    pure none
  else do
    let current_price ← get_current_price env
    let current_tick ← get_current_tick env
    let t ← get_current_time_str
    modify_last fun r =>
      { r with
        tick_current := current_tick
        price_current := current_price
        last_update := t }
    store_position_history
    let st2 ← getS
    let last2 ← liftExc (pyLast st2.position_history)
    if last2.tick_upper < current_tick ∨ current_tick < last2.tick_lower then do
      modifyS fun s => { s with lock := false }
      let _ ← close_position cfg env
      let _ ← open_position cfg env
      pure none
    else
      pure none

/-- update_position: the body behind the lock decorator. -/
def update_position : M (Option Bool) :=
  withLock .updatePos (update_position_body cfg env)

/-- handle_wait_for_withdrawal_okx_blocktrading_exception (lines 1140-1166): wait
again for the withdrawal, then reopen the position.  This helper has NO live caller
in this revision: the only code that spawned it as a background process is the
commented-out block at lines 1068-1093. -/
def handle_wait_for_withdrawal_okx_blocktrading_exception (wallet_amount : ℤ)
    (watch0 : Bool) (max_deadline sleep_time : ℕ) : M Unit := do
  wait_for_withdrawal_okx_blocktrading cfg env wallet_amount watch0 max_deadline
    sleep_time
  let _ ← open_position cfg env
  pure ()

end Ops

/-- Dispatch one of the three lock-guarded operations. -/
def runFn (cfg : Config) (env : Env) : Fn → M (Option Bool)
  | .openPos => open_position cfg env
  | .updatePos => update_position cfg env
  | .closePos => close_position cfg env

/-- Run a finite sequence of operation calls, each against its own environment
behaviour, keeping only the evolving state. -/
def applyCalls (cfg : Config) : List (Fn × Env) → State → State
  | [], s => s
  | (f, env) :: rest, s => applyCalls cfg rest ((runFn cfg env f s).2.1)

/-- The state of a freshly constructed manager whose position history starts empty
(no history file was loaded). -/
def initState : State := {}

/-- At most one record of a history is open. -/
def atMostOneOpen (h : List PositionRecord) : Prop :=
  (h.filter fun r => r.is_open).length ≤ 1

/-- Any open record of a history is its last element. -/
def openIsLast (h : List PositionRecord) : Prop :=
  ∀ r ∈ h, r.is_open = true → h.getLast? = some r

/-- An environment whose answers are all constant: prices 1000, ticks 250, empty
wallet, no CEX balances except one unit of USDC and USDT in the trading account,
zero fees, successful transfer and withdrawal codes, identity lot rounding. -/
def env0 : Env where
  price := fun _ => 1000
  tick := fun _ => 250
  erc20BalanceOf := fun _ => (0, 0)
  ethBalance := fun _ => 0
  maxFee := fun _ => 0
  funding := fun _ => []
  trading := fun _ => [("USDC", 1), ("USDT", 1)]
  lotSize := fun _ q => q
  transferCode := fun _ => "0"
  withdrawCode := fun _ => "0"
  depositAddresses := fun _ => ["0xdeposit"]
  txHash := fun _ => "0xhash"
  blockTrade := fun _ => .filled 1 1
  marketOrder := fun _ => "market_order"
  tokenId := fun _ => 7
  mintAmounts := fun _ => (0, 0, 0, 0)
  rangeFromTick := fun _ _ => (0, 0)
  calcAmounts := fun _ => (0, 0)

/-- A non-hedged (single-venue) configuration: no CEX credentials, plain token
symbols. -/
def cfgDex : Config :=
  { cex_credentials := false, token0_symbol := "USDC", token1_symbol := "USDT" }

/-- A hedged configuration: CEX credentials present, plain token symbols. -/
def cfgCex : Config :=
  { cex_credentials := true, token0_symbol := "USDC", token1_symbol := "USDT" }

/-- env0 with wallet balances 500 of asset0 and 0 of asset1 (raw units). -/
def envC7 : Env := { env0 with erc20BalanceOf := fun _ => (500, 0) }

/-- A manager state whose cached target amounts make the two required amounts
int(991 * 1.01) = 1000 and int(1 * 1.01) = 1. -/
def sC7 : State := { amount0 := 991, amount1 := 1 }

/-- A most-recently-closed position record. -/
def closedRecord : PositionRecord := { is_open := false, tokenID := 7 }

/-- A manager whose last (only) history record is closed and whose lock is free. -/
def sClosed : State := { position_history := [closedRecord] }

/-- An open position record with tick range [100, 200]. -/
def openRecord : PositionRecord :=
  { is_open := true, tick_lower := 100, tick_upper := 200, tokenID := 7 }

/-- A manager holding that open position, lock free. -/
def sOpen : State := { position_history := [openRecord] }

/-- The amounts snapshot get_amounts_okx_blocktrading produces under cfgCex/env0
from a manager whose cached target amounts are zero: nothing required, nothing in
the wallet, one unit of each asset in the CEX trading account. -/
def amountsC3 : OkxAmounts :=
  { required_amount0 := 0
    required_amount1 := 0
    required_amount0_decimal := 0
    required_amount1_decimal := 0
    existing_amount0 := 0
    existing_amount1 := 0
    existing_amount0_decimal := 0
    existing_amount1_decimal := 0
    cex_existing_amount0 := 10 ^ 6
    cex_existing_amount1 := 10 ^ 18
    cex_existing_amount0_decimal := 1
    cex_existing_amount1_decimal := 1
    diff_amount0_in_token0 := 10003 / 10000
    diff_amount0_in_token1 := 10003 / 10
    diff_amount1_in_token0 := 10003 / 10000000
    diff_amount1_in_token1 := 10003 / 10000
    required_swap_amount_from_token0_decimal := 10003 / 10000000
    required_swap_amount_from_token1_decimal := 10003 / 10
    cex_symbol := "USDC-USDT" }

/-- What close_position (during the rebalance of C6 under env0) turns openRecord
into: tick/price refreshed by update_position, then marked closed with its
decrease/collect hashes.  No new record exists and no tick_initial key exists. -/
def rebalancedRecord : PositionRecord :=
  { openRecord with
    tick_current := 250
    price_current := 1000
    last_update := 0
    tx_decrease := some "0xhash"
    tx_collect := some "0xhash"
    is_open := false }

end Web3Manager

/-!
Theorems.  First the arithmetic facts about the price/tick engine of Part 1,
then the behavioural facts about the manager of Part 2, and with them the
claim theorems, witnesses and counterexamples.
-/

theorem pyTrunc_of_nonneg {x : ℝ} (h : 0 ≤ x) : pyTrunc x = ⌊x⌋ := by
  simp [pyTrunc, h]

theorem pyTrunc_intCast (n : ℤ) (h : 0 ≤ n) : pyTrunc (n : ℝ) = n := by
  rw [pyTrunc_of_nonneg (by exact_mod_cast h), Int.floor_intCast]

namespace TokenManager

theorem Q96_pos : (0 : ℝ) < Q96 := by norm_num [Q96]

theorem log_sqrt_div_log_sqrt (x b : ℝ) (hx : 0 ≤ x) (hb : 0 ≤ b) :
    Real.log (Real.sqrt x) / Real.log (Real.sqrt b) = Real.log x / Real.log b := by
  rw [Real.log_sqrt hx, Real.log_sqrt hb]
  rcases eq_or_ne (Real.log b) 0 with h | h
  · simp [h]
  · field_simp

/-- Once the Q96 factor cancels and the square roots collapse, price_to_tick is the
truncated absolute base-1.0001 logarithm of the decimal-adjusted price. -/
theorem price_to_tick_eq (tm : TokenManager) (p : ℝ)
    (hp : 0 ≤ (10 : ℝ) ^ (tm.token0_decimal - tm.token1_decimal) * p) :
    tm.price_to_tick p =
      pyTrunc |Real.log ((10 : ℝ) ^ (tm.token0_decimal - tm.token1_decimal) * p) /
        Real.log 1.0001| := by
  unfold price_to_tick sqrt_price_x_96_to_tick price_to_sqrt_price_x_96
  rw [mul_div_assoc, div_self (ne_of_gt Q96_pos), mul_one,
    log_sqrt_div_log_sqrt _ _ hp (by norm_num)]

/-- The round trip of C9: converting a tick to a price and back yields the ABSOLUTE
VALUE of the tick, exactly (sqrt_price_x_96_to_tick wraps its logarithm in abs). -/
theorem roundtrip_eq_abs (tm : TokenManager) (t : ℤ) :
    tm.price_to_tick (tm.tick_to_price t) = |t| := by
  have hb : (0 : ℝ) < 1.0001 := by norm_num
  have h10 : (0 : ℝ) < (10 : ℝ) ^ (tm.token0_decimal - tm.token1_decimal) :=
    zpow_pos (by norm_num) _
  have hbt : (0 : ℝ) < (1.0001 : ℝ) ^ t := zpow_pos hb _
  have harg : (10 : ℝ) ^ (tm.token0_decimal - tm.token1_decimal) * tm.tick_to_price t =
      (1.0001 : ℝ) ^ (-t) := by
    unfold tick_to_price
    rw [zpow_neg]
    field_simp
    ring
  have hlog : Real.log 1.0001 ≠ 0 := ne_of_gt (Real.log_pos (by norm_num))
  rw [price_to_tick_eq _ _ (by rw [harg]; exact le_of_lt (zpow_pos hb _)), harg,
    Real.log_zpow, mul_div_assoc, div_self hlog, mul_one]
  have habs : |((-t : ℤ) : ℝ)| = ((|t| : ℤ) : ℝ) := by
    push_cast
    rw [abs_neg]
  rw [show (((-t : ℤ) : ℝ)) = ((-t : ℤ) : ℝ) from rfl] at habs
  calc pyTrunc |((-t : ℤ) : ℝ)| = pyTrunc ((|t| : ℤ) : ℝ) := by rw [habs]
    _ = |t| := pyTrunc_intCast _ (abs_nonneg t)

/-- On decimal-adjusted prices at or below 1, price_to_tick is antitone: the abs
around the (negative) logarithm reverses the order. -/
theorem price_to_tick_anti (tm : TokenManager) (p q : ℝ)
    (hp : 0 < p) (hpq : p ≤ q)
    (hq1 : (10 : ℝ) ^ (tm.token0_decimal - tm.token1_decimal) * q ≤ 1) :
    tm.price_to_tick q ≤ tm.price_to_tick p := by
  have h10 : (0 : ℝ) < (10 : ℝ) ^ (tm.token0_decimal - tm.token1_decimal) :=
    zpow_pos (by norm_num) _
  have hap : 0 < (10 : ℝ) ^ (tm.token0_decimal - tm.token1_decimal) * p :=
    mul_pos h10 hp
  have haq : 0 < (10 : ℝ) ^ (tm.token0_decimal - tm.token1_decimal) * q :=
    mul_pos h10 (lt_of_lt_of_le hp hpq)
  have hpq' : (10 : ℝ) ^ (tm.token0_decimal - tm.token1_decimal) * p ≤
      (10 : ℝ) ^ (tm.token0_decimal - tm.token1_decimal) * q :=
    mul_le_mul_of_nonneg_left hpq h10.le
  have hlogp : Real.log ((10 : ℝ) ^ (tm.token0_decimal - tm.token1_decimal) * p) ≤ 0 :=
    Real.log_nonpos hap.le (le_trans hpq' hq1)
  have hlogq : Real.log ((10 : ℝ) ^ (tm.token0_decimal - tm.token1_decimal) * q) ≤ 0 :=
    Real.log_nonpos haq.le hq1
  have hL : 0 < Real.log 1.0001 := Real.log_pos (by norm_num)
  have hlog_mono : Real.log ((10 : ℝ) ^ (tm.token0_decimal - tm.token1_decimal) * p) ≤
      Real.log ((10 : ℝ) ^ (tm.token0_decimal - tm.token1_decimal) * q) :=
    Real.log_le_log hap hpq'
  rw [price_to_tick_eq _ _ hap.le, price_to_tick_eq _ _ haq.le,
    abs_of_nonpos (div_nonpos_of_nonpos_of_nonneg hlogp hL.le),
    abs_of_nonpos (div_nonpos_of_nonpos_of_nonneg hlogq hL.le),
    pyTrunc_of_nonneg (neg_nonneg.mpr (div_nonpos_of_nonpos_of_nonneg hlogq hL.le)),
    pyTrunc_of_nonneg (neg_nonneg.mpr (div_nonpos_of_nonpos_of_nonneg hlogp hL.le))]
  apply Int.floor_le_floor
  rw [← neg_div, ← neg_div, div_le_div_iff_of_pos_right hL]
  linarith

end TokenManager

/-- C9 counterexample: at tick -1 the round trip price_to_tick(tick_to_price(-1))
evaluates to 1, which differs from -1 by 2, outside the claimed plus-or-minus-1
tolerance. -/
theorem c9_counterexample :
    TokenManager.price_to_tick ⟨6, 18⟩ (TokenManager.tick_to_price ⟨6, 18⟩ (-1)) = 1 ∧
    ¬ (|(1 : ℤ) - (-1)| ≤ 1) := by
  constructor
  · simpa using TokenManager.roundtrip_eq_abs ⟨6, 18⟩ (-1)
  · decide

/-- C9 (amended): for every tick t (any decimal configuration), the round trip
price_to_tick(tick_to_price(t)) equals |t| exactly; in particular for every
t at or above 0 it is within plus-or-minus 1 of t (indeed equal to t). -/
theorem c9_roundtrip_amended (tm : TokenManager) (t : ℤ) :
    tm.price_to_tick (tm.tick_to_price t) = |t| ∧
    (0 ≤ t → |tm.price_to_tick (tm.tick_to_price t) - t| ≤ 1) := by
  refine ⟨TokenManager.roundtrip_eq_abs tm t, fun ht => ?_⟩
  rw [TokenManager.roundtrip_eq_abs tm t, abs_of_nonneg ht]
  simp

/-- C10: calculate_liquidity_amounts returns a nonnegative amount0 and amount1 for
every current_price above 0, every pair 0 below range_low below range_high, and
every target_amount at or above 0. -/
theorem c10_calculate_liquidity_amounts_nonneg (tm : TokenManager)
    (low high cp t : ℝ) (hcp : 0 < cp) (hlow : 0 < low) (hlh : low < high)
    (ht : 0 ≤ t) :
    0 ≤ (tm.calculate_liquidity_amounts low high cp t).1 ∧
    0 ≤ (tm.calculate_liquidity_amounts low high cp t).2 := by
  have hepos : (0 : ℝ) < (10 : ℝ) ^ (tm.token1_decimal - tm.token0_decimal) :=
    zpow_pos (by norm_num) _
  simp only [TokenManager.calculate_liquidity_amounts]
  split_ifs with h1 h2
  · have hsq0pos : 0 < Real.sqrt (cp * (10 : ℝ) ^ (tm.token1_decimal - tm.token0_decimal)) :=
      Real.sqrt_pos.mpr (mul_pos hcp hepos)
    have hd1 : 0 < Real.sqrt (cp * (10 : ℝ) ^ (tm.token1_decimal - tm.token0_decimal)) -
        Real.sqrt (low * (10 : ℝ) ^ (tm.token1_decimal - tm.token0_decimal)) :=
      sub_pos.mpr h1.1
    have hd2 : 0 < 1 / Real.sqrt (cp * (10 : ℝ) ^ (tm.token1_decimal - tm.token0_decimal)) -
        1 / Real.sqrt (high * (10 : ℝ) ^ (tm.token1_decimal - tm.token0_decimal)) :=
      sub_pos.mpr (one_div_lt_one_div_of_lt hsq0pos h1.2)
    have hden : 0 < Real.sqrt (cp * (10 : ℝ) ^ (tm.token1_decimal - tm.token0_decimal)) -
        Real.sqrt (low * (10 : ℝ) ^ (tm.token1_decimal - tm.token0_decimal)) +
        (1 / Real.sqrt (cp * (10 : ℝ) ^ (tm.token1_decimal - tm.token0_decimal)) -
          1 / Real.sqrt (high * (10 : ℝ) ^ (tm.token1_decimal - tm.token0_decimal))) *
          (cp * (10 : ℝ) ^ (tm.token1_decimal - tm.token0_decimal)) :=
      add_pos hd1 (mul_pos hd2 (mul_pos hcp hepos))
    have hdl : 0 ≤ t / (Real.sqrt (cp * (10 : ℝ) ^ (tm.token1_decimal - tm.token0_decimal)) -
        Real.sqrt (low * (10 : ℝ) ^ (tm.token1_decimal - tm.token0_decimal)) +
        (1 / Real.sqrt (cp * (10 : ℝ) ^ (tm.token1_decimal - tm.token0_decimal)) -
          1 / Real.sqrt (high * (10 : ℝ) ^ (tm.token1_decimal - tm.token0_decimal))) *
          (cp * (10 : ℝ) ^ (tm.token1_decimal - tm.token0_decimal))) :=
      div_nonneg ht hden.le
    exact ⟨mul_nonneg (mul_nonneg hdl hd2.le) hepos.le, mul_nonneg hdl hd1.le⟩
  · have hSMINpos : 0 < Real.sqrt (low * (10 : ℝ) ^ (tm.token1_decimal - tm.token0_decimal)) :=
      Real.sqrt_pos.mpr (mul_pos hlow hepos)
    have hMM : Real.sqrt (low * (10 : ℝ) ^ (tm.token1_decimal - tm.token0_decimal)) <
        Real.sqrt (high * (10 : ℝ) ^ (tm.token1_decimal - tm.token0_decimal)) :=
      Real.sqrt_lt_sqrt (mul_pos hlow hepos).le (mul_lt_mul_of_pos_right hlh hepos)
    have hd : 0 < 1 / Real.sqrt (low * (10 : ℝ) ^ (tm.token1_decimal - tm.token0_decimal)) -
        1 / Real.sqrt (high * (10 : ℝ) ^ (tm.token1_decimal - tm.token0_decimal)) :=
      sub_pos.mpr (one_div_lt_one_div_of_lt hSMINpos hMM)
    have hdl : 0 ≤ t / ((1 / Real.sqrt (low * (10 : ℝ) ^ (tm.token1_decimal - tm.token0_decimal)) -
        1 / Real.sqrt (high * (10 : ℝ) ^ (tm.token1_decimal - tm.token0_decimal))) * cp) :=
      div_nonneg ht (mul_pos hd hcp).le
    exact ⟨mul_nonneg hdl hd.le, le_refl 0⟩
  · have hMM : Real.sqrt (low * (10 : ℝ) ^ (tm.token1_decimal - tm.token0_decimal)) <
        Real.sqrt (high * (10 : ℝ) ^ (tm.token1_decimal - tm.token0_decimal)) :=
      Real.sqrt_lt_sqrt (mul_pos hlow hepos).le (mul_lt_mul_of_pos_right hlh hepos)
    have hdl : 0 ≤ t / (Real.sqrt (high * (10 : ℝ) ^ (tm.token1_decimal - tm.token0_decimal)) -
        Real.sqrt (low * (10 : ℝ) ^ (tm.token1_decimal - tm.token0_decimal))) :=
      div_nonneg ht (sub_pos.mpr hMM).le
    exact ⟨le_refl 0, mul_nonneg hdl (sub_pos.mpr hMM).le⟩

/-- C8 (amended): get_ranges returns the claimed price band (lower price
current_price/(1+p/100), upper price current_price*(1+p/100), strictly bracketing
the current price and strictly widening in the percentage), and the upper tick is
price_to_tick of the LOWER price bound while the lower tick is price_to_tick of the
UPPER price bound; the tick ordering lower_tick below current_tick below upper_tick
holds WHEN the decimal-adjusted upper price bound is at most 1 (the regime of this
repository's pools) - not unconditionally, see the counterexample. -/
theorem c8_get_ranges_amended (tm : TokenManager) (pct pct' cp : ℝ)
    (hp : 0 < pct) (hp100 : pct ≤ 100) (hcp : 0 < cp) (hpp : pct < pct') :
    (tm.get_ranges pct cp).lower_range = cp / (1 + pct / 100) ∧
    (tm.get_ranges pct cp).upper_range = cp * (1 + pct / 100) ∧
    (tm.get_ranges pct cp).lower_range < cp ∧
    cp < (tm.get_ranges pct cp).upper_range ∧
    (tm.get_ranges pct' cp).lower_range < (tm.get_ranges pct cp).lower_range ∧
    (tm.get_ranges pct cp).upper_range < (tm.get_ranges pct' cp).upper_range ∧
    (tm.get_ranges pct cp).upper_tick =
      tm.price_to_tick ((tm.get_ranges pct cp).lower_range) ∧
    (tm.get_ranges pct cp).lower_tick =
      tm.price_to_tick ((tm.get_ranges pct cp).upper_range) ∧
    ((10 : ℝ) ^ (tm.token0_decimal - tm.token1_decimal) *
        (tm.get_ranges pct cp).upper_range ≤ 1 →
      (tm.get_ranges pct cp).lower_tick ≤ (tm.get_ranges pct cp).current_tick ∧
      (tm.get_ranges pct cp).current_tick ≤ (tm.get_ranges pct cp).upper_tick) := by
  have h100 : (0 : ℝ) < 1 + pct / 100 := by linarith
  have h100' : (0 : ℝ) < 1 + pct' / 100 := by linarith
  simp only [TokenManager.get_ranges]
  refine ⟨trivial, trivial, div_lt_self hcp (by linarith),
    lt_mul_of_one_lt_right hcp (by linarith),
    div_lt_div_of_pos_left hcp h100 (by linarith),
    mul_lt_mul_of_pos_left (by linarith) hcp, trivial, trivial, fun h1 => ?_⟩
  have hlow_pos : 0 < cp / (1 + pct / 100) := div_pos hcp h100
  have hcp_le : cp ≤ cp * (1 + pct / 100) :=
    le_of_lt (lt_mul_of_one_lt_right hcp (by linarith))
  have hcp1 : (10 : ℝ) ^ (tm.token0_decimal - tm.token1_decimal) * cp ≤ 1 := by
    have h10 : (0 : ℝ) < (10 : ℝ) ^ (tm.token0_decimal - tm.token1_decimal) :=
      zpow_pos (by norm_num) _
    calc (10 : ℝ) ^ (tm.token0_decimal - tm.token1_decimal) * cp
        ≤ (10 : ℝ) ^ (tm.token0_decimal - tm.token1_decimal) * (cp * (1 + pct / 100)) :=
          mul_le_mul_of_nonneg_left hcp_le h10.le
      _ ≤ 1 := h1
  exact ⟨TokenManager.price_to_tick_anti tm cp (cp * (1 + pct / 100)) hcp hcp_le h1,
    TokenManager.price_to_tick_anti tm (cp / (1 + pct / 100)) cp hlow_pos
      (le_of_lt (div_lt_self hcp (by linarith))) hcp1⟩

/-- C8 witness: the hypotheses and the full conclusion at percentages 10 and 20
and current price 1/10^9 for a 6/18-decimal pair (where the decimal-adjusted band
lies below 1, so the conditional tick ordering applies). -/
theorem c8_witness :
    (0 : ℝ) < 10 ∧ (10 : ℝ) ≤ 100 ∧ (0 : ℝ) < 1 / 10 ^ 9 ∧ (10 : ℝ) < 20 ∧
    ((TokenManager.get_ranges ⟨6, 18⟩ 10 (1 / 10 ^ 9)).lower_range =
        1 / 10 ^ 9 / (1 + 10 / 100) ∧
      (TokenManager.get_ranges ⟨6, 18⟩ 10 (1 / 10 ^ 9)).upper_range =
        1 / 10 ^ 9 * (1 + 10 / 100) ∧
      (TokenManager.get_ranges ⟨6, 18⟩ 10 (1 / 10 ^ 9)).lower_range < 1 / 10 ^ 9 ∧
      1 / 10 ^ 9 < (TokenManager.get_ranges ⟨6, 18⟩ 10 (1 / 10 ^ 9)).upper_range ∧
      (TokenManager.get_ranges ⟨6, 18⟩ 20 (1 / 10 ^ 9)).lower_range <
        (TokenManager.get_ranges ⟨6, 18⟩ 10 (1 / 10 ^ 9)).lower_range ∧
      (TokenManager.get_ranges ⟨6, 18⟩ 10 (1 / 10 ^ 9)).upper_range <
        (TokenManager.get_ranges ⟨6, 18⟩ 20 (1 / 10 ^ 9)).upper_range ∧
      (TokenManager.get_ranges ⟨6, 18⟩ 10 (1 / 10 ^ 9)).upper_tick =
        TokenManager.price_to_tick ⟨6, 18⟩
          ((TokenManager.get_ranges ⟨6, 18⟩ 10 (1 / 10 ^ 9)).lower_range) ∧
      (TokenManager.get_ranges ⟨6, 18⟩ 10 (1 / 10 ^ 9)).lower_tick =
        TokenManager.price_to_tick ⟨6, 18⟩
          ((TokenManager.get_ranges ⟨6, 18⟩ 10 (1 / 10 ^ 9)).upper_range) ∧
      ((10 : ℝ) ^ ((6 : ℤ) - 18) *
          (TokenManager.get_ranges ⟨6, 18⟩ 10 (1 / 10 ^ 9)).upper_range ≤ 1 →
        (TokenManager.get_ranges ⟨6, 18⟩ 10 (1 / 10 ^ 9)).lower_tick ≤
          (TokenManager.get_ranges ⟨6, 18⟩ 10 (1 / 10 ^ 9)).current_tick ∧
        (TokenManager.get_ranges ⟨6, 18⟩ 10 (1 / 10 ^ 9)).current_tick ≤
          (TokenManager.get_ranges ⟨6, 18⟩ 10 (1 / 10 ^ 9)).upper_tick)) :=
  ⟨by norm_num, by norm_num, by norm_num, by norm_num,
    c8_get_ranges_amended ⟨6, 18⟩ 10 20 (1 / 10 ^ 9) (by norm_num) (by norm_num)
      (by norm_num) (by norm_num)⟩

/-- C8 counterexample: for the 6/18-decimal pair at percentage 10 and current price
10^13 (decimal-adjusted price 10, above 1), the returned ticks satisfy
current_tick BELOW lower_tick, so the claimed ordering
lower_tick at or below current_tick at or below upper_tick is false. -/
theorem c8_counterexample :
    ¬ ((TokenManager.get_ranges ⟨6, 18⟩ 10 (10 ^ 13)).lower_tick ≤
        (TokenManager.get_ranges ⟨6, 18⟩ 10 (10 ^ 13)).current_tick ∧
      (TokenManager.get_ranges ⟨6, 18⟩ 10 (10 ^ 13)).current_tick ≤
        (TokenManager.get_ranges ⟨6, 18⟩ 10 (10 ^ 13)).upper_tick) := by
  simp only [TokenManager.get_ranges]
  have hL : 0 < Real.log 1.0001 := Real.log_pos (by norm_num)
  have ha_cur : (10 : ℝ) ^ ((6 : ℤ) - 18) * (10 ^ 13 : ℝ) = 10 := by
    norm_num
  have ha_up : (10 : ℝ) ^ ((6 : ℤ) - 18) * ((10 ^ 13 : ℝ) * (1 + 10 / 100)) = 11 := by
    norm_num
  have hcur : TokenManager.price_to_tick ⟨6, 18⟩ (10 ^ 13 : ℝ) =
      ⌊Real.log 10 / Real.log 1.0001⌋ := by
    rw [TokenManager.price_to_tick_eq ⟨6, 18⟩ _ (by rw [ha_cur]; norm_num), ha_cur,
      abs_of_nonneg (div_nonneg (Real.log_nonneg (by norm_num)) hL.le),
      pyTrunc_of_nonneg (div_nonneg (Real.log_nonneg (by norm_num)) hL.le)]
  have hup : TokenManager.price_to_tick ⟨6, 18⟩ ((10 ^ 13 : ℝ) * (1 + 10 / 100)) =
      ⌊Real.log 11 / Real.log 1.0001⌋ := by
    rw [TokenManager.price_to_tick_eq ⟨6, 18⟩ _ (by rw [ha_up]; norm_num), ha_up,
      abs_of_nonneg (div_nonneg (Real.log_nonneg (by norm_num)) hL.le),
      pyTrunc_of_nonneg (div_nonneg (Real.log_nonneg (by norm_num)) hL.le)]
  have hgap : Real.log 10 / Real.log 1.0001 + 1 ≤ Real.log 11 / Real.log 1.0001 := by
    rw [div_add_one (ne_of_gt hL), div_le_div_iff_of_pos_right hL]
    have h1110 : Real.log 11 - Real.log 10 = Real.log (11 / 10) := by
      rw [Real.log_div (by norm_num) (by norm_num)]
    have hlog11 : Real.log 1.0001 ≤ Real.log (11 / 10) :=
      Real.log_le_log (by norm_num) (by norm_num)
    linarith [h1110, hlog11]
  have hfloor : ⌊Real.log 10 / Real.log 1.0001⌋ < ⌊Real.log 11 / Real.log 1.0001⌋ := by
    have h2 : ⌊Real.log 10 / Real.log 1.0001 + 1⌋ ≤ ⌊Real.log 11 / Real.log 1.0001⌋ :=
      Int.floor_le_floor hgap
    rw [Int.floor_add_one] at h2
    omega
  intro h
  rw [hcur, hup] at h
  exact absurd h.1 (not_le.mpr hfloor)

/-- C10 witness: the hypotheses and conclusion at range [1, 4], price 9 and target 1
for a 6/18-decimal pair. -/
theorem c10_witness :
    (0 : ℝ) < 9 ∧ (0 : ℝ) < 1 ∧ (1 : ℝ) < 4 ∧ (0 : ℝ) ≤ 1 ∧
    (0 ≤ (TokenManager.calculate_liquidity_amounts ⟨6, 18⟩ 1 4 9 1).1 ∧
     0 ≤ (TokenManager.calculate_liquidity_amounts ⟨6, 18⟩ 1 4 9 1).2) :=
  ⟨by norm_num, by norm_num, by norm_num, by norm_num,
    c10_calculate_liquidity_amounts_nonneg ⟨6, 18⟩ 1 4 9 1 (by norm_num) (by norm_num)
      (by norm_num) (by norm_num)⟩

namespace Web3Manager

theorem M.bind_apply (x : M α) (f : α → M β) (s : State) :
    (x >>= f) s =
      match x s with
      | (.ok a, s1, tr) =>
        match f a s1 with
        | (r, s2, tr2) => (r, s2, tr ++ tr2)
      | (.error e, s1, tr) => (.error e, s1, tr) := rfl

theorem M.pure_apply (a : α) (s : State) : (pure a : M α) s = (.ok a, s, []) := rfl

/-- The TypeError of the misbound range_from_tick call surfaces from every
calculate_position_range_and_amounts call, after the three price/tick reads. -/
theorem calculate_raises_typeError (cfg : Config) (env : Env) (s : State) :
    calculate_position_range_and_amounts cfg env s =
      (.error .typeError, { s with k := s.k + 3 }, []) := rfl

/-- A non-skipped open_position always aborts with the range_from_tick TypeError,
releasing the lock and changing nothing but the oracle cursor. -/
theorem open_position_eq_of_unlocked (cfg : Config) (env : Env) (s : State)
    (h : s.lock = false) :
    open_position cfg env s =
      (.error .typeError, { s with k := s.k + 3, lock := false },
        [.call .openPos, .enter .openPos]) := by
  unfold open_position withLock
  rw [if_neg (by simp [h])]
  rfl

/-- open_position never changes the position history: skipped calls return the
state untouched and entered calls abort before the append. -/
theorem open_position_hist (cfg : Config) (env : Env) (s : State) :
    (open_position cfg env s).2.1.position_history = s.position_history := by
  by_cases h : s.lock = true
  · unfold open_position withLock
    rw [if_pos (by simp [h])]
  · rw [open_position_eq_of_unlocked cfg env s (by simpa using h)]

/-- close_position on an empty history raises IndexError before touching anything. -/
theorem close_position_hist_empty (cfg : Config) (env : Env) (s : State)
    (h : s.position_history = []) :
    (close_position cfg env s).2.1.position_history = [] := by
  unfold close_position withLock
  by_cases hl : s.lock = true
  · rw [if_pos (by simp [hl])]
    exact h
  · rw [if_neg (by simp [hl])]
    unfold close_position_body
    simp [M.bind_apply, getS, liftExc, h, pyLast]

/-- update_position on an empty history raises IndexError before touching anything. -/
theorem update_position_hist_empty (cfg : Config) (env : Env) (s : State)
    (h : s.position_history = []) :
    (update_position cfg env s).2.1.position_history = [] := by
  unfold update_position withLock
  by_cases hl : s.lock = true
  · rw [if_pos (by simp [hl])]
    exact h
  · rw [if_neg (by simp [hl])]
    unfold update_position_body
    simp [M.bind_apply, getS, liftExc, h, pyLast]

/-- From an empty history, no sequence of the three operations ever grows the
history (open aborts on the TypeError before its append, and update/close hit
IndexError on the empty history first). -/
theorem applyCalls_hist_empty (cfg : Config) (calls : List (Fn × Env)) :
    ∀ s : State, s.position_history = [] →
      (applyCalls cfg calls s).position_history = [] := by
  induction calls with
  | nil => intro s h; exact h
  | cons c rest ih =>
    intro s h
    obtain ⟨f, env⟩ := c
    have hstep : (runFn cfg env f s).2.1.position_history = [] := by
      cases f
      · exact (open_position_hist cfg env s).trans h
      · exact update_position_hist_empty cfg env s h
      · exact close_position_hist_empty cfg env s h
    change (applyCalls cfg rest ((runFn cfg env f s).2.1)).position_history = []
    exact ih _ hstep

/-- C1: starting from an empty position history, after any finite sequence of
open_position/update_position/close_position calls (each against an arbitrary
behaviour of the external world), the history holds at most one record with
is_open = true, and any such record is its last element.  In this revision the
invariant holds because the history in fact stays empty: every entered
open_position aborts on the range_from_tick TypeError before appending. -/
theorem c1_at_most_one_open_and_last (cfg : Config) (calls : List (Fn × Env)) :
    atMostOneOpen (applyCalls cfg calls initState).position_history ∧
    openIsLast (applyCalls cfg calls initState).position_history := by
  have h : (applyCalls cfg calls initState).position_history = [] :=
    applyCalls_hist_empty cfg calls initState rfl
  rw [h]
  constructor
  · simp [atMostOneOpen]
  · intro r hr
    simp at hr

/-- C2: every call to calculate_position_range_and_amounts raises TypeError (the
bound-method call passes the TokenManager receiver as the positional currentTick
argument on top of the currentTick keyword), and therefore every open_position
call that is not skipped by the lock raises TypeError as well. -/
theorem c2_calculate_position_range_raises_typeError (cfg : Config) (env : Env)
    (s : State) (h : s.lock = false) :
    (calculate_position_range_and_amounts cfg env s).1 = .error .typeError ∧
    (open_position cfg env s).1 = .error .typeError := by
  constructor
  · rw [calculate_raises_typeError]
  · rw [open_position_eq_of_unlocked cfg env s h]

/-- C2 witness: the TypeError at a concrete unlocked manager. -/
theorem c2_witness :
    initState.lock = false ∧
    ((calculate_position_range_and_amounts cfgDex env0 initState).1 =
        .error .typeError ∧
      (open_position cfgDex env0 initState).1 = .error .typeError) :=
  ⟨rfl, c2_calculate_position_range_raises_typeError cfgDex env0 initState rfl⟩

/-- C4: a call to any of the three operations made while the lock is held returns
the skipped outcome None and leaves the entire manager state - position history and
persisted file included - untouched; and a non-skipped call leaves the lock
released on exit whether it returned or raised. -/
theorem c4_lock_exclusivity_and_release (cfg : Config) (env : Env) (s : State) :
    (s.lock = true →
      open_position cfg env s = (.ok none, s, [.call .openPos]) ∧
      update_position cfg env s = (.ok none, s, [.call .updatePos]) ∧
      close_position cfg env s = (.ok none, s, [.call .closePos])) ∧
    (s.lock = false →
      (open_position cfg env s).2.1.lock = false ∧
      (update_position cfg env s).2.1.lock = false ∧
      (close_position cfg env s).2.1.lock = false) := by
  constructor
  · intro h
    refine ⟨?_, ?_, ?_⟩
    · unfold open_position withLock
      rw [if_pos (by simp [h])]
    · unfold update_position withLock
      rw [if_pos (by simp [h])]
    · unfold close_position withLock
      rw [if_pos (by simp [h])]
  · intro h
    refine ⟨?_, ?_, ?_⟩
    · unfold open_position withLock
      rw [if_neg (by simp [h])]
    · unfold update_position withLock
      rw [if_neg (by simp [h])]
    · unfold close_position withLock
      rw [if_neg (by simp [h])]

/-- C4 witness: the skipped outcome at a concrete locked manager and the released
lock at a concrete unlocked manager. -/
theorem c4_witness :
    (open_position cfgDex env0 { lock := true } =
        (.ok none, { lock := true }, [.call .openPos]) ∧
      update_position cfgDex env0 { lock := true } =
        (.ok none, { lock := true }, [.call .updatePos]) ∧
      close_position cfgDex env0 { lock := true } =
        (.ok none, { lock := true }, [.call .closePos])) ∧
    ((open_position cfgDex env0 initState).2.1.lock = false ∧
      (update_position cfgDex env0 initState).2.1.lock = false ∧
      (close_position cfgDex env0 initState).2.1.lock = false) :=
  ⟨(c4_lock_exclusivity_and_release cfgDex env0 { lock := true }).1 rfl,
    (c4_lock_exclusivity_and_release cfgDex env0 initState).2 rfl⟩

/-- C5 (the code bug evaluated): with a closed last record and a free lock,
update_position takes the no-open-position branch and calls open_position - but the
lock is still held, so the inner call is skipped (a call event with no enter event)
and the manager state, history included, is returned unchanged: no record with
is_open = true is appended, contrary to the claimed delegation. -/
theorem c5_update_delegation_is_skipped :
    update_position cfgDex env0 sClosed =
      (.ok none, sClosed, [.call .updatePos, .enter .updatePos, .call .openPos]) := by
  rfl

/-- C6 (the code bug evaluated): from an open position with range [100, 200] and a
current tick of 250, update_position refreshes and persists the record, releases
the lock, performs exactly one close (entered, marking the record closed with its
transaction hashes) and exactly one open (entered, not lock-skipped) - but the open
aborts with the range_from_tick TypeError after its three price/tick reads, so NO
new record is appended (and no tick_initial key exists in this revision's record
schema at all). -/
theorem c6_rebalance_close_then_open_aborts :
    update_position cfgDex env0 sOpen =
      (.error .typeError,
        { lock := false, position_history := [rebalancedRecord],
          stored_history := some [rebalancedRecord], k := 7 },
        [.call .updatePos, .enter .updatePos, .call .closePos, .enter .closePos,
          .call .openPos, .enter .openPos]) := by
  rfl

/-- When both wallet balances are below their required amounts,
swap_amounts_uniswap takes the both-short branch: InsufficientFunds, with only the
two oracle reads (price, balances) performed and no state touched. -/
theorem swap_amounts_uniswap_both_short (cfg : Config) (env : Env) (s : State)
    (w0 w1 : ℤ) (hcex : cfg.cex_credentials = false)
    (hw : ∀ k, env.erc20BalanceOf k = (w0, w1))
    (h0 : w0 < pyTruncQ ((s.amount0 : ℚ) * (101 / 100)))
    (h1 : w1 < pyTruncQ ((s.amount1 : ℚ) * (101 / 100))) :
    swap_amounts_uniswap cfg env s =
      (.error .insufficientFunds, { s with k := s.k + 2 }, []) := by
  have hwv : ∀ u k, walletView cfg env u k = (w0, w1) := by
    intro u k
    simp [walletView, hcex, hw k]
  unfold swap_amounts_uniswap get_current_price get_existing_required_amounts
    update_wallet_balance
  simp only [M.bind_apply, M.pure_apply, step, getS, hwv]
  rw [if_neg (by rintro ⟨ha, -⟩; exact absurd ha (not_le.mpr h0)), if_pos ⟨h0, h1⟩]
  rfl

/-- C7: in the non-hedged path, when both wallet balances are below their required
amounts the swap step raises InsufficientFunds and leaves position_history and the
persisted history file unchanged. -/
theorem c7_swap_amounts_uniswap_insufficient (cfg : Config) (env : Env) (s : State)
    (w0 w1 : ℤ) (hcex : cfg.cex_credentials = false)
    (hw : ∀ k, env.erc20BalanceOf k = (w0, w1))
    (h0 : w0 < pyTruncQ ((s.amount0 : ℚ) * (101 / 100)))
    (h1 : w1 < pyTruncQ ((s.amount1 : ℚ) * (101 / 100))) :
    (swap_amounts_uniswap cfg env s).1 = .error .insufficientFunds ∧
    (swap_amounts_uniswap cfg env s).2.1.position_history = s.position_history ∧
    (swap_amounts_uniswap cfg env s).2.1.stored_history = s.stored_history := by
  rw [swap_amounts_uniswap_both_short cfg env s w0 w1 hcex hw h0 h1]
  exact ⟨rfl, rfl, rfl⟩

/-- C7 witness: wallet balances (500, 0) against required amounts
int(991 * 1.01) = 1000 and int(1 * 1.01) = 1. -/
theorem c7_witness :
    cfgDex.cex_credentials = false ∧
    (∀ k, envC7.erc20BalanceOf k = ((500 : ℤ), (0 : ℤ))) ∧
    (500 : ℤ) < pyTruncQ ((sC7.amount0 : ℚ) * (101 / 100)) ∧
    (0 : ℤ) < pyTruncQ ((sC7.amount1 : ℚ) * (101 / 100)) ∧
    ((swap_amounts_uniswap cfgDex envC7 sC7).1 = .error .insufficientFunds ∧
      (swap_amounts_uniswap cfgDex envC7 sC7).2.1.position_history =
        sC7.position_history ∧
      (swap_amounts_uniswap cfgDex envC7 sC7).2.1.stored_history =
        sC7.stored_history) :=
  ⟨rfl, fun _ => rfl, by norm_num [sC7, pyTruncQ], by norm_num [sC7, pyTruncQ],
    c7_swap_amounts_uniswap_insufficient cfgDex envC7 sC7 500 0 rfl (fun _ => rfl)
      (by norm_num [sC7, pyTruncQ]) (by norm_num [sC7, pyTruncQ])⟩

theorem update_wallet_balance_apply (cfg : Config) (env : Env) (u : Bool) (s : State) :
    update_wallet_balance cfg env u s =
      (.ok (walletView cfg env u s.k), { s with k := s.k + 1 }, []) := rfl

/-- When no poll ever sees the watched wallet balance exceed its snapshot, the
withdrawal-wait loop ends in WithdrawTimeout (given at least one fuel unit per
clock unit of the deadline window), touching nothing but the cursor and clock. -/
theorem wait_for_withdrawal_loop_timeout (cfg : Config) (env : Env)
    (wallet_amount : ℤ) (watch0 : Bool) (deadline sleep_time : ℕ)
    (hs : 1 ≤ sleep_time)
    (hbal : ∀ k, (if watch0 then (walletView cfg env false k).1
      else (walletView cfg env false k).2) ≤ wallet_amount) :
    ∀ (fuel : ℕ) (s : State), 1 ≤ fuel → deadline + 2 ≤ fuel + s.now →
      ∃ s' : State,
        wait_for_withdrawal_loop cfg env wallet_amount watch0 deadline sleep_time
          fuel s = (.error .withdrawTimeout, s', []) ∧
        s'.background_process = s.background_process ∧
        s'.position_history = s.position_history ∧
        s'.stored_history = s.stored_history ∧
        s'.lock = s.lock := by
  intro fuel
  induction fuel with
  | zero => intro s h1 _; omega
  | succ fuel ih =>
    intro s _ h2
    rw [wait_for_withdrawal_loop]
    simp only [M.bind_apply, update_wallet_balance_apply, ite_apply,
      if_neg (not_lt.mpr (hbal s.k)), getS]
    by_cases hnow : deadline < s.now
    · rw [if_pos hnow]
      exact ⟨{ s with k := s.k + 1 }, rfl, rfl, rfl, rfl, rfl⟩
    · rw [if_neg hnow]
      have hnow' : s.now ≤ deadline := not_lt.mp hnow
      obtain ⟨s', heq, hb, hh, hst, hl⟩ :=
        ih { s with k := s.k + 1, now := s.now + sleep_time } (by omega) (by simp; omega)
      simp only [sleep, modifyS, M.bind_apply]
      rw [heq]
      exact ⟨s', rfl, hb, hh, hst, hl⟩

/-- A withdrawal whose wallet poll never observes an increase ends in
WithdrawTimeout, leaving the background-process slot, the history and the
persisted file untouched and emitting no event. -/
theorem withdraw_amounts_timeout_ex (cfg : Config) (env : Env) (s : State)
    (wallet_amount : ℤ) (amount : ℚ) (watch0 : Bool)
    (hcode : ∀ k, env.withdrawCode k = "0")
    (hbal : ∀ k, (if watch0 then (walletView cfg env false k).1
      else (walletView cfg env false k).2) ≤ wallet_amount) :
    ∃ s' : State,
      withdraw_amounts_okx_blocktrading cfg env wallet_amount amount watch0 s =
        (.error .withdrawTimeout, s', []) ∧
      s'.background_process = s.background_process ∧
      s'.position_history = s.position_history ∧
      s'.stored_history = s.stored_history := by
  obtain ⟨s', heq, hb, hh, hst, hl⟩ :=
    wait_for_withdrawal_loop_timeout cfg env wallet_amount watch0
      (({ s with k := s.k + 1 } : State).now + 3 * 60 * 60) 5 (by norm_num) hbal
      (3 * 60 * 60 + 2) { s with k := s.k + 1 } (by norm_num) (by omega)
  refine ⟨s', ?_, hb, hh, hst⟩
  unfold withdraw_amounts_okx_blocktrading wait_for_withdrawal_okx_blocktrading
  simp only [M.bind_apply, step, getS, hcode, ne_eq, not_true_eq_false, if_false,
    ite_apply]
  rw [heq]
  rfl

/-- C3 (amended): when the post-withdrawal wallet poll never observes a balance
increase before its deadline, withdraw_amounts_okx_blocktrading raises
WithdrawTimeout to its caller as a plain fatal exception: no background recovery
task is scheduled (background_process is untouched), the history is untouched, and
no open_position call of any kind occurs (the event trace is empty).  The saga
swap_amounts_okx_blocktrading wraps this call in no try/except - the block that
caught WithdrawTimeout and spawned the recovery process is commented out (lines
1049-1094) - so the exception propagates to the foreground caller. -/
theorem c3_withdrawal_timeout_is_fatal (cfg : Config) (env : Env) (s : State)
    (wallet_amount : ℤ) (amount : ℚ) (watch0 : Bool)
    (hcode : ∀ k, env.withdrawCode k = "0")
    (hbal : ∀ k, (if watch0 then (walletView cfg env false k).1
      else (walletView cfg env false k).2) ≤ wallet_amount) :
    (withdraw_amounts_okx_blocktrading cfg env wallet_amount amount watch0 s).1 =
      .error .withdrawTimeout ∧
    (withdraw_amounts_okx_blocktrading cfg env wallet_amount amount
        watch0 s).2.1.background_process = s.background_process ∧
    (withdraw_amounts_okx_blocktrading cfg env wallet_amount amount
        watch0 s).2.1.position_history = s.position_history ∧
    (withdraw_amounts_okx_blocktrading cfg env wallet_amount amount
        watch0 s).2.2 = [] := by
  obtain ⟨s', heq, hb, hh, hst⟩ :=
    withdraw_amounts_timeout_ex cfg env s wallet_amount amount watch0 hcode hbal
  rw [heq]
  exact ⟨rfl, hb, hh, rfl⟩

/-- C3 witness: the fatal timeout at a concrete manager, environment (constant
wallet balances, the balance never rises above its snapshot of 0) and watch key. -/
theorem c3_witness :
    (withdraw_amounts_okx_blocktrading cfgCex env0 0 0 true initState).1 =
      .error .withdrawTimeout ∧
    (withdraw_amounts_okx_blocktrading cfgCex env0 0 0
        true initState).2.1.background_process = initState.background_process ∧
    (withdraw_amounts_okx_blocktrading cfgCex env0 0 0
        true initState).2.1.position_history = initState.position_history ∧
    (withdraw_amounts_okx_blocktrading cfgCex env0 0 0 true initState).2.2 = [] :=
  c3_withdrawal_timeout_is_fatal cfgCex env0 initState 0 0 true (fun _ => rfl)
    (fun k => by simp [walletView, cfgCex, env0])

theorem get_amounts_c3 (s : State) (h0 : s.amount0 = 0) (h1 : s.amount1 = 0) :
    get_amounts_okx_blocktrading cfgCex env0 s =
      (.ok amountsC3, { s with k := s.k + 10 }, []) := by
  unfold get_amounts_okx_blocktrading get_current_price get_existing_required_amounts
    get_cex_balances
  simp only [M.bind_apply, M.pure_apply, step, getS, update_wallet_balance_apply,
    liftExc, ite_apply, h0, h1, cfgCex, env0, Config.token0_symbol_cex,
    Config.token1_symbol_cex, walletView, lookupBalance, List.find?, pyTruncQ,
    pyDiv]
  simp
  simp only [M.bind_apply, M.pure_apply, step, getS]
  norm_num [amountsC3, h0, h1]

/-- C3 counterexample: at a concrete manager and environment whose wallet balance
never rises above its snapshot, the withdrawal step of the hedged saga ends in the
raised exception WithdrawTimeout - a fatal abort, not a recoverable partial
result - while background_process stays None (no recovery task is scheduled), the
history is untouched and no open_position invocation of any kind occurs (the event
trace is empty), contradicting the claimed background recovery that invokes
open_position exactly once. -/
theorem c3_counterexample :
    (withdraw_amounts_okx_blocktrading cfgCex env0 0 5 false sClosed).1 =
      .error .withdrawTimeout ∧
    (withdraw_amounts_okx_blocktrading cfgCex env0 0 5
        false sClosed).2.1.background_process = false ∧
    (withdraw_amounts_okx_blocktrading cfgCex env0 0 5
        false sClosed).2.1.position_history = [closedRecord] ∧
    (withdraw_amounts_okx_blocktrading cfgCex env0 0 5 false sClosed).2.2 = [] := by
  obtain ⟨s', heq, hb, hh, hst⟩ :=
    withdraw_amounts_timeout_ex cfgCex env0 sClosed 0 5 false (fun _ => rfl)
      (fun k => by simp [walletView, cfgCex, env0])
  rw [heq]
  exact ⟨rfl, hb, hh.trans (by simp [sClosed]), rfl⟩

end Web3Manager

end UniswapHft
